import Mathlib

/-!
Shallow embedding of `src/main.py`, a Telegram customer-support bot built on
FastAPI.  Pure helpers (`check_faq`) are translated directly; functions that
perform outbound HTTP or OpenAI calls are parametrised by an oracle describing
the outcome of the single outbound call they make, and the message-processing
orchestrator is modelled as a function returning the trace of outbound effects
it performs.  Machine strings are Lean `String`s (a wrapper around `List Char`
in this toolchain); Python `str.lower` is modelled by `Char.toLower`, and
Python substring containment (`in`) by `List.IsInfix` on the character lists.
-/

namespace TGBot

/-- FAQ responses table from `main.py` lines 43-50: an insertion-ordered
mapping from lowercase keyword to canned answer, modelled as an association
list in the same fixed order (`hours`, `location`, `contact`, `shipping`,
`returns`, `payment`). -/
def FAQ_RESPONSES : List (String × String) :=
  [ ("hours", "Our business hours are Monday to Friday, 9 AM to 6 PM EST. We\x27re closed on weekends and public holidays."),
    ("location", "We\x27re located at 123 Main Street, Suite 100, New York, NY 10001. You can also reach us online 24/7!"),
    ("contact", "You can contact us via:\n📧 Email: support@company.com\n📞 Phone: +1 (555) 123-4567\n💬 This chat (24/7 AI support)"),
    ("shipping", "We offer free shipping on orders over $50. Standard shipping takes 3-5 business days, and express shipping takes 1-2 business days."),
    ("returns", "We accept returns within 30 days of purchase. Items must be unused and in original packaging. Contact us to initiate a return."),
    ("payment", "We accept all major credit cards, PayPal, Apple Pay, and Google Pay. All transactions are secure and encrypted.") ]

/-- Model of Python `message_text.lower()` as a character list: lower-case
every character. -/
def lowerData (s : String) : List Char :=
  s.data.map Char.toLower

/-- Boolean test corresponding to `keyword in message_lower` for one
`(keyword, response)` pair of the FAQ table. -/
def faqMatch (message_text : String) (p : String × String) : Bool :=
  decide (p.1.data <:+: lowerData message_text)

/-- Model of `check_faq` (`main.py` lines 54-66): lower-case the message, then
scan the FAQ pairs in insertion order and return the response of the first
keyword that is a substring of the lowered message, `none` otherwise.  The
Python `for`-loop with early `return` is `List.find?` followed by projecting
the response. -/
def check_faq (message_text : String) : Option String :=
  (FAQ_RESPONSES.find? (faqMatch message_text)).map Prod.snd

/-- Helper: `List.find?` returns the marked element when everything before it
fails the predicate and the marked element satisfies it. -/
theorem find?_append_of_forall_not {α : Type} (p : α → Bool) (l1 l2 : List α)
    (x : α) (h1 : ∀ y ∈ l1, p y = false) (hx : p x = true) :
    (l1 ++ x :: l2).find? p = some x := by
  induction l1 with
  | nil => simp [List.find?, hx]
  | cons a l ih =>
    have ha : p a = false := h1 a (by simp)
    simp only [List.cons_append, List.find?, ha]
    exact ih fun y hy => h1 y (by simp [hy])

/-- Every keyword in the FAQ table is already lower-case, so containment in
the lowered message is exactly case-insensitive containment. -/
theorem faq_keywords_lowercase :
    ∀ p ∈ FAQ_RESPONSES, p.1.data.map Char.toLower = p.1.data := by
  decide

end TGBot

namespace TGBot

/-- C1: for every message text that contains some configured FAQ keyword as a
case-insensitive substring (equivalently, as a substring of the lower-cased
text, since every keyword is lower-case), `check_faq` returns that keyword's
exact configured answer; for every message text containing none of the
configured keywords (including the empty string), `check_faq` returns
`none`. -/
theorem check_faq_cases (t : String) :
    (∃ p ∈ FAQ_RESPONSES, p.1.data <:+: lowerData t ∧ check_faq t = some p.2) ∨
    ((∀ p ∈ FAQ_RESPONSES, ¬ p.1.data <:+: lowerData t) ∧ check_faq t = none) := by
  cases h : FAQ_RESPONSES.find? (faqMatch t) with
  | none =>
    right
    refine ⟨fun p hp hinf => ?_, by simp [check_faq, h]⟩
    have hfalse := List.find?_eq_none.mp h p hp
    simp only [faqMatch, decide_eq_true_eq] at hfalse
    exact hfalse hinf
  | some p =>
    left
    refine ⟨p, List.mem_of_find?_eq_some h, ?_, by simp [check_faq, h]⟩
    have hsat := List.find?_some h
    simpa [faqMatch] using hsat

/-- C2: when several configured keywords occur in the message, `check_faq`
returns the answer of the matching keyword that comes first in the FAQ
table's fixed insertion order (`hours`, `location`, `contact`, `shipping`,
`returns`, `payment`), regardless of where the keywords sit inside the
message text: if the table splits as `l1 ++ p :: l2` with nothing in `l1`
matching and `p` matching, the answer is `p`'s. -/
theorem check_faq_first_match_wins (t : String) (l1 l2 : List (String × String))
    (p : String × String)
    (hsplit : FAQ_RESPONSES = l1 ++ p :: l2)
    (hbefore : ∀ q ∈ l1, ¬ q.1.data <:+: lowerData t)
    (hp : p.1.data <:+: lowerData t) :
    FAQ_RESPONSES.map Prod.fst =
      ["hours", "location", "contact", "shipping", "returns", "payment"] ∧
    check_faq t = some p.2 := by
  refine ⟨rfl, ?_⟩
  unfold check_faq
  rw [hsplit, find?_append_of_forall_not (faqMatch t) l1 l2 p
      (fun y hy => by simpa [faqMatch] using hbefore y hy)
      (by simpa [faqMatch] using hp)]
  rfl

/-- Witness for C2 at a concrete input: in the message the keyword
`location` appears before the keyword `hours`, yet the answer returned is
the one for `hours`, the keyword that comes first in the table order. -/
theorem check_faq_first_match_wins_witness :
    FAQ_RESPONSES.map Prod.fst =
      ["hours", "location", "contact", "shipping", "returns", "payment"] ∧
    check_faq "Tell me the LOCATION and the hours" =
      some "Our business hours are Monday to Friday, 9 AM to 6 PM EST. We\x27re closed on weekends and public holidays." :=
  check_faq_first_match_wins "Tell me the LOCATION and the hours" [] _ _
    rfl (by simp) (by decide)

/-! Completion Client (`get_ai_response`, `main.py` lines 69-100).  The OpenAI
call is modelled as an oracle of type `Except String ChatCompletion`: `.error`
stands for any exception raised by `client.chat.completions.create`, and
`.ok` carries the returned completion object.  The reply extraction
`response.choices[0].message.content.strip()` runs inside the same `try`
block, so an empty `choices` list (Python `IndexError`) or a `None` content
(Python `AttributeError` on `None.strip()`) also lands in the `except`
branch. -/

/-- Message object inside one completion choice; `content` is optional in the
OpenAI client. -/
structure ChoiceMessage where
  content : Option String
deriving Repr, DecidableEq

/-- One entry of a completion's `choices` list. -/
structure Choice where
  message : ChoiceMessage
deriving Repr, DecidableEq

/-- Completion object returned by the provider. -/
structure ChatCompletion where
  choices : List Choice
deriving Repr, DecidableEq

/-- Python whitespace characters stripped by `str.strip()` (ASCII fragment). -/
def pyIsSpace (c : Char) : Bool :=
  c == ' ' || c == '\t' || c == '\n' || c == '\r' || c == '\x0b' || c == '\x0c'

/-- Model of Python `str.strip()`: drop whitespace from both ends. -/
def pyStrip (s : String) : String :=
  ⟨((s.data.dropWhile pyIsSpace).reverse.dropWhile pyIsSpace).reverse⟩

/-- Fixed apology string returned by `get_ai_response` on any failure
(`main.py` line 100). -/
def APOLOGY : String :=
  "I apologize, but I\x27m having trouble processing your request right now. Please try again in a moment or contact our support team directly."

/-- Raw reply text of a completion call, when every step of the extraction
succeeds: the call returned, `choices` is non-empty and the first choice's
`content` is present. -/
def rawReply (call : Except String ChatCompletion) : Option String :=
  match call with
  | .error _ => none
  | .ok r =>
    match r.choices with
    | [] => none
    | c :: _ => c.message.content

/-- Model of `get_ai_response` (`main.py` lines 69-100): on a successful call
with an extractable reply, return the stripped reply; on any raised error
(transport, empty `choices`, absent `content`) return the fixed apology.
The Lean function returns a plain `String`, mirroring that the Python
function never propagates an exception to its caller. -/
def get_ai_response (call : Except String ChatCompletion) : String :=
  match call with
  | .error _ => APOLOGY
  | .ok r =>
    match r.choices with
    | [] => APOLOGY
    | c :: _ =>
      match c.message.content with
      | none => APOLOGY
      | some s => pyStrip s

/-- C3: `get_ai_response` is total to its caller — for every outcome of the
completion-provider call, either the reply extraction fully succeeds and the
result is the provider's reply text with surrounding whitespace stripped, or
some step raises and the result is the fixed apology string verbatim; no
exception ever propagates (the model's return type is a plain `String`). -/
theorem get_ai_response_total (call : Except String ChatCompletion) :
    (∃ s, rawReply call = some s ∧ get_ai_response call = pyStrip s) ∨
    (rawReply call = none ∧ get_ai_response call = APOLOGY) := by
  cases call with
  | error e => right; exact ⟨rfl, rfl⟩
  | ok r =>
    cases hr : r.choices with
    | nil => right; simp [rawReply, get_ai_response, hr]
    | cons c rest =>
      cases hc : c.message.content with
      | none => right; simp [rawReply, get_ai_response, hr, hc]
      | some s => left; exact ⟨s, by simp [rawReply, hr, hc], by simp [get_ai_response, hr, hc]⟩

/-! Messaging Client (`send_telegram_message`, `main.py` lines 103-122).  The
`requests.post` call is modelled as an oracle `Except String HttpResp`:
`.error` is any `requests.exceptions.RequestException` raised by the call
itself (connection failure, timeout, ...), `.ok` carries the final HTTP
response.  `response.raise_for_status()` raises `HTTPError` exactly when the
status code is in 400..599 (the `requests` library's documented behaviour);
a 1xx/3xx final response does NOT raise. -/

/-- HTTP response as seen by the `requests` caller: status code and, when the
body parses as JSON, the parsed document (abstracted to a string). -/
structure HttpResp where
  status : Nat
  jsonBody : Option String
deriving Repr, DecidableEq

/-- Model of `requests` `Response.raise_for_status`: an error for status
codes 400-599, success otherwise. -/
def raise_for_status (r : HttpResp) : Except String Unit :=
  if 400 ≤ r.status ∧ r.status < 600 then
    .error ("HTTP error " ++ toString r.status)
  else
    .ok ()

/-- Model of `send_telegram_message` (`main.py` lines 103-122): post the
payload (the oracle `post` is the outcome of that single outbound call),
raise for status, return `true` on success; any `RequestException` is caught
and turns into `false`.  The `chat_id` and `text` arguments only shape the
outbound payload, which the oracle abstracts. -/
def send_telegram_message (chat_id : Int) (text : String)
    (post : Except String HttpResp) : Bool :=
  match post with
  | .error _ => false
  | .ok r =>
    match raise_for_status r with
    | .error _ => false
    | .ok _ => true

/-- C4 counterexample: the claim says `send_telegram_message` returns `true`
exactly on a 2xx response, but `raise_for_status` only raises for 4xx/5xx, so
a final 301 response (possible when the platform answers with a redirect that
carries no Location to follow) makes the function return `true` although 301
is not 2xx. -/
theorem send_telegram_message_claim_false :
    ¬ (∀ post : Except String HttpResp,
        send_telegram_message 1 "hi" post = true ↔
          ∃ r, post = .ok r ∧ 200 ≤ r.status ∧ r.status < 300) := by
  intro h
  obtain ⟨r, hr, h2⟩ := (h (.ok ⟨301, none⟩)).mp rfl
  cases hr
  dsimp at h2
  omega

/-- C4 (amended): `send_telegram_message` is total to its caller and returns
`true` exactly when the platform call completes with a response whose status
code is outside 400-599 (so `raise_for_status` does not raise); it returns
`false` — never raising — on any transport error, timeout, or 4xx/5xx
status. -/
theorem send_telegram_message_spec (chat_id : Int) (text : String)
    (post : Except String HttpResp) :
    send_telegram_message chat_id text post = true ↔
      ∃ r, post = .ok r ∧ ¬ (400 ≤ r.status ∧ r.status < 600) := by
  cases post with
  | error e =>
    constructor
    · intro h; simp [send_telegram_message] at h
    · rintro ⟨r, hr, -⟩; cases hr
  | ok r =>
    constructor
    · intro htrue
      refine ⟨r, rfl, fun hc => ?_⟩
      simp [send_telegram_message, raise_for_status, hc] at htrue
    · rintro ⟨r', hr', hn⟩
      injection hr' with hr'
      subst hr'
      simp [send_telegram_message, raise_for_status, hn]

/-! Message Processor (`process_message`, `main.py` lines 125-165).  The
incoming dict is modelled by the result of the three `.get` chains the code
performs: `chat_id = message.get("chat", {}).get("id")` (`none` when either
level is absent), `text = message.get("text", ...)` (`none` when absent; the
code then substitutes `""`), and `from.first_name` (`none` when absent; the
code substitutes `"there"`).  The function's outbound interactions — Telegram
sends and Completion Client calls — are modelled as a returned effect trace;
`ai` gives the (total, see `get_ai_response`) reply text used for the
fallback branch. -/

/-- Incoming message record as read by `process_message`. -/
structure MessageRecord where
  chat_id : Option Int
  text : Option String
  first_name : Option String
deriving Repr, DecidableEq

/-- One outbound interaction performed by `process_message`. -/
inductive Effect where
  | sendMessage (chat_id : Int) (text : String)
  | aiCall (prompt : String)
deriving Repr, DecidableEq

/-- Python truthiness of the extracted chat id: `None` and `0` are falsy. -/
def chatIdTruthy : Option Int → Bool
  | none => false
  | some n => !(n == 0)

/-- Model of Python `message_text.startswith("/start")` on the extracted
text. -/
def py_startswith (s pre : String) : Bool :=
  pre.data.isPrefixOf s.data

/-- Fixed welcome template of the `/start` branch (`main.py` lines 142-152),
with the sender display name interpolated. -/
def welcome_message (user_name : String) : String :=
  "👋 Hello " ++ user_name ++
    "! Welcome to our customer support.\n\nI\x27m here to help you 24/7. You can ask me about:\n• Business hours\n• Location\n• Contact information\n• Shipping & returns\n• Payment options\n• Or anything else!\n\nHow can I assist you today?"

/-- Model of `process_message` (`main.py` lines 125-165) as the trace of its
outbound effects.  Branches in source order: Python-truthiness guard on chat
id and text (line 134), `/start` greeting (line 141), FAQ answer, and the
Completion Client fallback.  The boolean result of each send is ignored by
the code, so the trace only records that the send happened. -/
def process_message (msg : MessageRecord) (ai : String → String) : List Effect :=
  let chat_id := msg.chat_id
  let message_text := msg.text.getD ""
  let user_name := msg.first_name.getD "there"
  if !chatIdTruthy chat_id || message_text.data.isEmpty then
    []
  else if py_startswith message_text "/start" then
    [Effect.sendMessage (chat_id.getD 0) (welcome_message user_name)]
  else
    match check_faq message_text with
    | some faq_response => [Effect.sendMessage (chat_id.getD 0) faq_response]
    | none =>
      [Effect.aiCall message_text,
       Effect.sendMessage (chat_id.getD 0) (ai message_text)]

/-- Number of Telegram sends in an effect trace. -/
def sendCount (l : List Effect) : Nat :=
  (l.filter fun e => match e with
    | Effect.sendMessage _ _ => true
    | Effect.aiCall _ => false).length

/-- C5: when the chat identifier or the text is absent from the message
record, `process_message` returns without any outbound effect — zero sends
and zero Completion Client calls. -/
theorem process_message_absent_fields (msg : MessageRecord) (ai : String → String)
    (h : msg.chat_id = none ∨ msg.text = none) :
    process_message msg ai = [] := by
  obtain ⟨cid, txt, fname⟩ := msg
  rcases h with h | h <;> cases h
  · rfl
  · cases cid with
    | none => rfl
    | some n =>
      simp only [process_message, chatIdTruthy, Option.getD_none, Option.getD_some]
      simp [String.data]

/-- Witness for C5: a record carrying text and a sender name but no chat
identifier produces an empty effect trace. -/
theorem process_message_absent_fields_witness :
    process_message ⟨none, some "hello", some "Ana"⟩ (fun _ => "reply") = [] :=
  process_message_absent_fields ⟨none, some "hello", some "Ana"⟩
    (fun _ => "reply") (Or.inl rfl)

/-- C10: the guard on line 134 tests Python truthiness, so a chat identifier
that is present but equal to `0`, or a text that is present but empty, is
treated exactly like an absent field: `process_message` returns with zero
outbound sends and zero Completion Client calls. -/
theorem process_message_falsy_values (msg : MessageRecord) (ai : String → String)
    (h : msg.chat_id = some 0 ∨ msg.text = some "") :
    process_message msg ai = [] := by
  obtain ⟨cid, txt, fname⟩ := msg
  rcases h with h | h <;> cases h
  · rfl
  · cases cid with
    | none => rfl
    | some n => simp [process_message, chatIdTruthy, String.data]

/-- Witness for C10: a record with chat identifier `0` and non-empty text
produces an empty effect trace. -/
theorem process_message_falsy_values_witness :
    process_message ⟨some 0, some "hello", some "Bob"⟩ (fun _ => "reply") = [] :=
  process_message_falsy_values ⟨some 0, some "hello", some "Bob"⟩
    (fun _ => "reply") (Or.inl rfl)

/-- Helper: string concatenation concatenates the character data. -/
theorem data_append (a b : String) : (a ++ b).data = a.data ++ b.data := rfl

/-- C6 counterexample: a record whose chat identifier is present but `0`,
with text `"/start"` and sender name `"Ana"`, performs zero sends — Python
truthiness short-circuits the `/start` branch — refuting the claim that every
record with a present chat identifier and `/start` text triggers exactly one
welcome send. -/
theorem process_message_start_claim_false :
    process_message ⟨some 0, some "/start", some "Ana"⟩ (fun _ => "reply") = [] ∧
    sendCount (process_message ⟨some 0, some "/start", some "Ana"⟩ (fun _ => "reply")) = 0 :=
  ⟨rfl, rfl⟩

/-- C6 (amended): for every record whose chat identifier is present and
non-zero (Python-truthy) and whose text begins with `"/start"`,
`process_message` sends exactly one message — the fixed welcome template with
the sender's display name interpolated, which therefore contains that name as
a substring — and performs no FAQ-answer send and no Completion Client
call. -/
theorem process_message_start (msg : MessageRecord) (ai : String → String)
    (c : Int) (hc : msg.chat_id = some c) (hc0 : c ≠ 0)
    (ht : py_startswith (msg.text.getD "") "/start" = true) :
    process_message msg ai =
      [Effect.sendMessage c (welcome_message (msg.first_name.getD "there"))] ∧
    (msg.first_name.getD "there").data <:+:
      (welcome_message (msg.first_name.getD "there")).data := by
  obtain ⟨cid, txt, fname⟩ := msg
  dsimp only at hc ht ⊢
  subst hc
  constructor
  · have h1 : chatIdTruthy (some c) = true := by simp [chatIdTruthy, hc0]
    have h2 : (txt.getD "").data.isEmpty = false := by
      cases hd : (txt.getD "").data with
      | nil =>
        unfold py_startswith at ht
        rw [hd] at ht
        exact absurd ht (by decide)
      | cons a l => simp [hd]
    simp [process_message, h1, h2, ht]
  · exact ⟨"👋 Hello ".data,
      "! Welcome to our customer support.\n\nI\x27m here to help you 24/7. You can ask me about:\n• Business hours\n• Location\n• Contact information\n• Shipping & returns\n• Payment options\n• Or anything else!\n\nHow can I assist you today?".data,
      rfl⟩

/-- Witness for the amended C6: chat identifier `5`, text `"/start"`, sender
name `"Ana"` — exactly one send, of the welcome template containing
`"Ana"`. -/
theorem process_message_start_witness :
    process_message ⟨some 5, some "/start", some "Ana"⟩ (fun _ => "reply") =
      [Effect.sendMessage 5 (welcome_message "Ana")] ∧
    "Ana".data <:+: (welcome_message "Ana").data :=
  process_message_start ⟨some 5, some "/start", some "Ana"⟩ (fun _ => "reply")
    5 rfl (by decide) (by decide)

/-- C7: a single invocation of `process_message` performs at most one
outbound send — every branch of the orchestrator ends in zero or one
`sendMessage` effect, with no retry. -/
theorem process_message_at_most_one_send (msg : MessageRecord)
    (ai : String → String) :
    sendCount (process_message msg ai) ≤ 1 := by
  obtain ⟨cid, txt, fname⟩ := msg
  simp only [process_message]
  split
  · simp [sendCount]
  · split
    · simp [sendCount]
    · cases h : check_faq (txt.getD "") with
      | none => simp [h, sendCount]
      | some r => simp [h, sendCount]

/-! HTTP Endpoint Layer (`main.py` lines 179-231).  FastAPI returns HTTP 200
for a handler that returns a dict (the framework default status), and turns a
raised `HTTPException` into a response with that exception's status code.
The webhook receiver's input is modelled as `Except String (Option
MessageRecord)`: `.error e` is any exception raised inside the handler's
`try` block — a JSON parse failure in `request.json()` or a fault escaping
`process_message` (e.g. a non-dict `message` object raising on `.get`) —
with `e` the exception text; `.ok none` is a well-formed update without a
`message`; `.ok (some m)` carries the message record. -/

/-- Body of the webhook receiver's JSON reply: `{"status": "ok"}` or
`{"status": "error", "message": e}`. -/
inductive WebhookBody where
  | ok
  | error (message : String)
deriving Repr, DecidableEq

/-- HTTP reply produced by the webhook receiver: status code plus body. -/
structure HttpReply where
  status : Nat
  body : WebhookBody
deriving Repr, DecidableEq

/-- Model of the `webhook` endpoint (`main.py` lines 207-231): parse the
update, process the message when present, answer `{"status": "ok"}`; any
exception is caught and answered `{"status": "error", "message": str(e)}` —
in both cases with the framework's 200 status, never a 5xx.  The second
component is the trace of outbound effects performed while processing. -/
def webhook (body : Except String (Option MessageRecord))
    (ai : String → String) : HttpReply × List Effect :=
  match body with
  | .error e => (⟨200, WebhookBody.error e⟩, [])
  | .ok none => (⟨200, WebhookBody.ok⟩, [])
  | .ok (some m) => (⟨200, WebhookBody.ok⟩, process_message m ai)

/-- C8: the webhook receiver answers HTTP 200 for every inbound request —
including malformed bodies and faults raised during processing, which are
caught and answered with an error-shaped JSON body still under status 200,
never a 5xx. -/
theorem webhook_always_200 (body : Except String (Option MessageRecord))
    (ai : String → String) :
    (webhook body ai).1.status = 200 ∧
    ((∃ e, body = .error e ∧ (webhook body ai).1.body = WebhookBody.error e) ∨
      (webhook body ai).1.body = WebhookBody.ok) := by
  cases body with
  | error e => exact ⟨rfl, Or.inl ⟨e, rfl, rfl⟩⟩
  | ok m => cases m with
    | none => exact ⟨rfl, Or.inr rfl⟩
    | some m => exact ⟨rfl, Or.inr rfl⟩

/-! Webhook registration (`set_webhook`, `main.py` lines 179-204).  The
outbound `requests.post` to the platform's `setWebhook` endpoint is the same
oracle shape as for `send_telegram_message`.  After `raise_for_status`, the
code calls `response.json()`, whose failure (`requests`' `JSONDecodeError`,
a `RequestException` subclass) is caught by the same `except` clause.  On
any caught failure the handler raises `HTTPException(status_code=500,
detail="Failed to set webhook: " + str(e))`; on success it returns the
success payload embedding the platform's raw acknowledgment. -/

/-- Success payload of the registration endpoint (`main.py` lines 195-200). -/
structure SetWebhookBody where
  success : Bool
  message : String
  webhook_url : String
  telegram_response : String
deriving Repr, DecidableEq

/-- Outcome of a registration request: a JSON success body, or an
`HTTPException` with its status code and detail string. -/
inductive EndpointResult where
  | ok (body : SetWebhookBody)
  | httpError (status : Nat) (detail : String)
deriving Repr, DecidableEq

/-- Exception text for a JSON decode failure of the platform's response. -/
def jsonDecodeError : String :=
  "Expecting value: line 1 column 1 (char 0)"

/-- Model of the `set_webhook` endpoint (`main.py` lines 179-204): post to
the platform (oracle `post`), raise for status, parse the JSON body; on
success return `{"success": true, ...}` with the platform's raw
acknowledgment; on any `RequestException` raise `HTTPException(500,
"Failed to set webhook: " + str(e))`. -/
def set_webhook (webhook_url : String) (post : Except String HttpResp) :
    EndpointResult :=
  match post with
  | .error e => .httpError 500 ("Failed to set webhook: " ++ e)
  | .ok r =>
    match raise_for_status r with
    | .error e => .httpError 500 ("Failed to set webhook: " ++ e)
    | .ok _ =>
      match r.jsonBody with
      | none => .httpError 500 ("Failed to set webhook: " ++ jsonDecodeError)
      | some result =>
        .ok ⟨true, "Webhook set successfully", webhook_url, result⟩

/-- C9 counterexample: the claim says any non-2xx platform response yields an
error status, but `raise_for_status` only raises for 4xx/5xx, so a final 301
response with a parseable body makes `set_webhook` answer `success: true`
although 301 is not 2xx. -/
theorem set_webhook_claim_false :
    set_webhook "https://example.com/wh" (.ok ⟨301, some "ack"⟩) =
      EndpointResult.ok ⟨true, "Webhook set successfully", "https://example.com/wh", "ack"⟩ ∧
    ¬ (200 ≤ 301 ∧ 301 < 300) :=
  ⟨rfl, by omega⟩

/-- C9 (amended): when the platform call fails — transport error, timeout, or
a 4xx/5xx response — `set_webhook` answers with an HTTP 500 error whose
detail string contains the underlying failure cause; when the call completes
with a status outside 400-599 and a parseable JSON body, it returns
`success: true` together with the platform's raw acknowledgment payload —
the failure is surfaced to the caller, not swallowed. -/
theorem set_webhook_spec (url : String) (post : Except String HttpResp) :
    (∀ e, post = .error e →
      set_webhook url post = .httpError 500 ("Failed to set webhook: " ++ e) ∧
      e.data <:+: ("Failed to set webhook: " ++ e).data) ∧
    (∀ r, post = .ok r → 400 ≤ r.status → r.status < 600 →
      ∃ d, set_webhook url post = .httpError 500 d ∧
        ("HTTP error " ++ toString r.status).data <:+: d.data) ∧
    (∀ r result, post = .ok r → ¬ (400 ≤ r.status ∧ r.status < 600) →
      r.jsonBody = some result →
      set_webhook url post =
        .ok ⟨true, "Webhook set successfully", url, result⟩) := by
  refine ⟨?_, ?_, ?_⟩
  · rintro e rfl
    exact ⟨rfl, ⟨"Failed to set webhook: ".data, [], by simp [data_append]⟩⟩
  · rintro r rfl h4 h6
    refine ⟨"Failed to set webhook: " ++ ("HTTP error " ++ toString r.status),
      ?_, ⟨"Failed to set webhook: ".data, [], by simp [data_append]⟩⟩
    simp [set_webhook, raise_for_status, h4, h6]
  · rintro r result rfl hn hj
    simp [set_webhook, raise_for_status, hn, hj]

/-- Witness for the amended C9: a transport error with text `"timeout"`
yields an HTTP 500 whose detail contains `"timeout"`, and a 200 response with
acknowledgment `"ack"` yields the success payload. -/
theorem set_webhook_spec_witness :
    (set_webhook "https://example.com/wh" (.error "timeout") =
      .httpError 500 "Failed to set webhook: timeout" ∧
      "timeout".data <:+: "Failed to set webhook: timeout".data) ∧
    set_webhook "https://example.com/wh" (.ok ⟨200, some "ack"⟩) =
      EndpointResult.ok ⟨true, "Webhook set successfully", "https://example.com/wh", "ack"⟩ :=
  ⟨(set_webhook_spec "https://example.com/wh" (.error "timeout")).1 "timeout" rfl,
   (set_webhook_spec "https://example.com/wh" (.ok ⟨200, some "ack"⟩)).2.2
     ⟨200, some "ack"⟩ "ack" rfl (by dsimp; omega) rfl⟩

end TGBot
